import Mathlib

/-!
Verification of the Bank Protocol Client & Synchronization Subsystem
(`hktn/core/database.py`, `hktn/core/obr_client.py`,
`hktn/backend/services/sync_engine.py`, `hktn/backend/services/consents.py`).

Each Python function relevant to the verified properties is shallowly embedded
as an executable Lean definition.  Timestamps are modelled as natural-number
seconds: the source stores ISO-8601 UTC strings whose lexicographic comparison
(used in the SQL `expires_at > ?` filters) agrees with chronological order, so
`Nat` comparison is a faithful model.  Database effects are modelled by
explicit state passing; Python exceptions by `Except`.
-/

namespace DB

/-- One row of the `sync_locks` table (`database.py`, CREATE TABLE sync_locks).
`user_id` is the PRIMARY KEY of the table; all timestamps are seconds. -/
structure LockRow where
  user_id : String
  locked_at : Nat
  sync_id : String
  expires_at : Nat
deriving Repr, DecidableEq

/-- The `sync_locks` table, as a list of rows. -/
abbrev LockTable := List LockRow

/-- `database.py::acquire_sync_lock(user_id, sync_id, ttl_seconds)` at time
`now`: SELECT a row with `user_id = ? AND expires_at > ?`; if one exists
return `False`, else DELETE any row for the user, INSERT a fresh row expiring
at `now + ttl`, and return `True`.  Returns the flag and the updated table. -/
def acquire_sync_lock (tbl : LockTable) (user_id sync_id : String)
    (now ttl : Nat) : Bool × LockTable :=
  match tbl.find? (fun r => r.user_id == user_id && now < r.expires_at) with
  | some _ => (false, tbl)
  | none =>
      let cleared := tbl.filter (fun r => r.user_id != user_id)
      (true, cleared ++ [⟨user_id, now, sync_id, now + ttl⟩])

/-- `database.py::release_sync_lock(user_id)`:
`DELETE FROM sync_locks WHERE user_id = ?` — no `sync_id` argument and no
holder check. -/
def release_sync_lock (tbl : LockTable) (user_id : String) : LockTable :=
  tbl.filter (fun r => r.user_id != user_id)

/-- `database.py::get_sync_lock(user_id)` at time `now`: fetch the row with
`user_id = ? AND expires_at > ?`, or `None`. -/
def get_sync_lock (tbl : LockTable) (user_id : String) (now : Nat) :
    Option LockRow :=
  (tbl.filter (fun r => r.user_id == user_id && now < r.expires_at)).head?

/-- `database.py::is_sync_locked(user_id)`:
`get_sync_lock(user_id) is not None`. -/
def is_sync_locked (tbl : LockTable) (user_id : String) (now : Nat) : Bool :=
  (get_sync_lock tbl user_id now).isSome

/-- The PRIMARY KEY constraint of `sync_locks`: at most one row per user. -/
def pkUnique (tbl : LockTable) : Prop :=
  ∀ uid : String, tbl.countP (fun r => r.user_id == uid) ≤ 1

end DB

namespace SyncEngine

open DB

/-- `database.py::StoredConsent` as used by the sync engine: one approved
consent row (`bank_id`, `consent_id`, `consent_type`). -/
structure StoredConsent where
  bank_id : String
  consent_id : String
  consent_type : String
deriving Repr, DecidableEq

/-- A Python exception value, as observed by the sync coordinator:
either an `HTTPException(status_code, detail)` or any other exception
carrying its message. -/
inductive Exc where
  | http (code : Nat) (detail : String)
  | err (msg : String)
deriving Repr, DecidableEq

/-- `str(exc)` as used when recording a failed bank in the results. -/
def Exc.msg : Exc → String
  | .http _ d => d
  | .err m => m

/-- The I/O environment of one sync run: the outcome of every external call
the coordinator makes.  `find_approved_consents` may return a list or raise;
each bank's `_sync_single_bank` job either completes or raises; the optional
dashboard recomputation (`get_dashboard_metrics`) may raise. -/
structure Env where
  accountsConsents : Except Exc (List StoredConsent)
  productsConsents : Except Exc (List StoredConsent)
  bankSync : String → Except Exc Unit
  dashboard : Except Exc Unit

/-- Result record of `sync_engine.py::_run_sync_background`: the banks that
synced, the banks that failed (with `str(exc)`), and the exception recorded by
the outer `except Exception` block, if any.  The coroutine itself never
propagates an exception. -/
structure BgResult where
  banks_synced : List String
  banks_failed : List (String × String)
  fatal : Option Exc
deriving Repr, DecidableEq

/-- The success side of one gathered `_sync_single_bank` outcome: the bank id
goes into `banks_synced` iff the job did not raise. -/
def syncedOf : String × Except Exc Unit → Option String
  | (b, .ok _) => some b
  | (_, .error _) => none

/-- The failure side of one gathered `_sync_single_bank` outcome: the bank id
and `str(exc)` go into `banks_failed` iff the job raised. -/
def failedOf : String × Except Exc Unit → Option (String × String)
  | (_, .ok _) => none
  | (b, .error e) => some (b, e.msg)

/-- `sync_engine.py::_run_sync_background(user_id, sync_id)`.  The whole body
runs inside `try/except Exception/finally: release_sync_lock(user_id)`:
consents are loaded, one `_sync_single_bank` task per approved account consent
is gathered with `return_exceptions=True`, results are partitioned into
synced/failed banks.  Returns the result record and the lock table after the
`finally` block. -/
def run_sync_background (env : Env) (tbl : LockTable) (user_id : String) :
    BgResult × LockTable :=
  let res : BgResult :=
    match env.accountsConsents with
    | .error e => ⟨[], [], some e⟩
    | .ok accounts =>
      match env.productsConsents with
      | .error e => ⟨[], [], some e⟩
      | .ok _ =>
        if accounts.isEmpty then ⟨[], [], none⟩
        else
          let outcomes := accounts.map fun c => (c.bank_id, env.bankSync c.bank_id)
          ⟨outcomes.filterMap syncedOf, outcomes.filterMap failedOf, none⟩
  (res, release_sync_lock tbl user_id)

/-- One entry of the `results` list built by the per-bank loop of
`run_full_refresh`: `{"bank_id": ..., "status": res.get("status", "success")}`
when `_sync_single_bank` returns (it always reports `"success"`), and
`{"bank_id": ..., "status": "error"}` when it raises. -/
def bankStatusEntry (env : Env) (c : StoredConsent) : String × String :=
  match env.bankSync c.bank_id with
  | .ok _ => (c.bank_id, "success")
  | .error _ => (c.bank_id, "error")

/-- Successful return value of `run_full_refresh`: the per-bank status list
(`{"bank_id": ..., "status": "success" | "error"}`) and the sync id. -/
structure RefreshOk where
  banks : List (String × String)
  sync_id : String
deriving Repr, DecidableEq

/-- `sync_engine.py::run_full_refresh(user_id, force, include_dashboard)` at
time `now`, embedded step for step:

1. `if is_sync_locked: raise HTTPException(409)`;
2. `acquire_sync_lock(user_id, sync_id, ttl_seconds=300)`, 409 on failure;
3. **outside any `try`**: load the approved account and product consents
   (a raised exception here escapes with the lock still held);
4. **outside any `try`**: `if not accounts_consents: raise HTTPException(424)`
   — this path also leaves the freshly acquired lock in place;
5. `try:` run `_sync_single_bank` per consent, catching per-bank exceptions
   into `{"status": "error"}` entries, optionally recompute the dashboard,
   `finally: release_sync_lock(user_id)`.

Returns the overall outcome and the final lock table. -/
def run_full_refresh (env : Env) (tbl : LockTable) (user_id sync_id : String)
    (now : Nat) (include_dashboard : Bool) :
    Except Exc RefreshOk × LockTable :=
  if is_sync_locked tbl user_id now then
    (.error (.http 409 "Sync already in progress"), tbl)
  else
    match acquire_sync_lock tbl user_id sync_id now 300 with
    | (false, tbl') => (.error (.http 409 "Failed to acquire sync lock"), tbl')
    | (true, tbl') =>
      match env.accountsConsents with
      | .error e => (.error e, tbl')
      | .ok accounts =>
        match env.productsConsents with
        | .error e => (.error e, tbl')
        | .ok _ =>
          if accounts.isEmpty then
            (.error (.http 424 "No approved consents found."), tbl')
          else
            let results := accounts.map (bankStatusEntry env)
            let body : Except Exc RefreshOk :=
              if include_dashboard then
                match env.dashboard with
                | .error e => .error e
                | .ok _ => .ok ⟨results, sync_id⟩
              else .ok ⟨results, sync_id⟩
            (body, release_sync_lock tbl' user_id)

end SyncEngine

namespace Retry

/-- An exception raised by one outbound HTTP attempt: a transport-level
failure (`httpx.TimeoutException` / `ConnectError` / `NetworkError`) or an
`httpx.HTTPStatusError` carrying the response status code (raised by
`response.raise_for_status()` for any status ≥ 400). -/
inductive NetExc where
  | transport
  | httpStatus (code : Nat)
deriving Repr, DecidableEq

/-- `obr_client.py::_is_retryable(exc)`: `True` for `HTTPStatusError` with
status ≥ 500, `True` for the transport exception classes, else `False`. -/
def _is_retryable : NetExc → Bool
  | .httpStatus code => 500 ≤ code
  | .transport => true

/-- The retry loop of the `api_retry = retry(stop=stop_after_attempt(3),
wait=..., retry=retry_if_exception(_is_retryable))` decorator (the `tenacity`
library's documented semantics, instantiated with the repository's
configuration).  `f n` is the outcome of the `n`-th attempt; `stopAfter` is
the attempt bound, `fuel` the remaining retries (termination measure).
Returns the final outcome together with the number of attempts performed. -/
def retryGo (f : Nat → Except NetExc α) (stopAfter : Nat) :
    Nat → Nat → Except NetExc α × Nat
  | attempt, fuel =>
    match f attempt with
    | .ok x => (.ok x, attempt)
    | .error e =>
      match fuel with
      | 0 => (.error e, attempt)
      | fuel' + 1 =>
        if _is_retryable e && attempt < stopAfter then
          retryGo f stopAfter (attempt + 1) fuel'
        else (.error e, attempt)

/-- A call decorated with `@api_retry`: first attempt is attempt 1, at most
3 attempts in total (`stop_after_attempt(3)`). -/
def api_retry (f : Nat → Except NetExc α) : Except NetExc α × Nat :=
  retryGo f 3 1 2

/-- The backoff configured by `wait_exponential(multiplier=1, min=1, max=5)`:
the exponential term `multiplier * 2^k` for the `k`-th wait, clamped into the
configured `[min, max] = [1, 5]` band (seconds). -/
def backoff_wait (k : Nat) : Nat := max 1 (min 5 (1 * 2 ^ k))

end Retry

namespace TokenCache

/-- In-memory cache state of `obr_client.py::OBRAPIClient._get_bank_token`:
`_bank_token` and `_token_expires_at` (seconds), where after a fresh fetch
`_token_expires_at = payload["exp"] - 60` (the code subtracts
`timedelta(minutes=1)` from the validated token's `exp` claim). -/
structure ClientTokenState where
  bank_token : Option String
  token_expires_at : Option Nat
deriving Repr, DecidableEq

/-- The cache-hit test at the top of `_get_bank_token`: the cached token is
returned iff `self._bank_token and self._token_expires_at and
datetime.now() < self._token_expires_at` (with Python string truthiness:
an empty token string is falsy). -/
def served_from_cache (st : ClientTokenState) (now : Nat) : Option String :=
  match st.bank_token, st.token_expires_at with
  | some tok, some exp_margin =>
      if tok ≠ "" ∧ now < exp_margin then some tok else none
  | _, _ => none

/-- The cache state written after a successful fetch and validation of a
token whose `exp` claim is `exp` (seconds):
`_token_expires_at = exp - 60`. -/
def state_after_fetch (tok : String) (exp : Nat) : ClientTokenState :=
  ⟨some tok, some (exp - 60)⟩

/-- A row of the `bank_tokens` table (`database.py::store_bank_token`). -/
structure TokenRow where
  access_token : String
  expires_at : Nat
deriving Repr, DecidableEq

/-- `database.py::get_cached_bank_token(bank_id)` at time `now`, given the
row stored for the bank (or none): a token whose
`expires_at <= now + 60` is considered stale and `None` is returned. -/
def get_cached_bank_token (row : Option TokenRow) (now : Nat) :
    Option TokenRow :=
  match row with
  | none => none
  | some r => if r.expires_at ≤ now + 60 then none else some r

end TokenCache

namespace Wire

/-- A JSON value as decoded from a bank response (`response.json()`).
Numbers are modelled as rationals. -/
inductive JSON where
  | jnull
  | jbool (b : Bool)
  | jnum (q : Rat)
  | jstr (s : String)
  | jarr (items : List JSON)
  | jobj (fields : List (String × JSON))

open JSON

/-- Python truthiness of a JSON value (`bool(v)`): `None`, `False`, `0`,
`""`, `[]` and `{}` are falsy. -/
def truthy : JSON → Bool
  | .jnull => false
  | .jbool b => b
  | .jnum q => q != 0
  | .jstr s => s ≠ ""
  | .jarr items => !items.isEmpty
  | .jobj fields => !fields.isEmpty

/-- `d.get(key)` on a JSON object: `none` models Python `None` (also for a
non-object receiver, which the probing helpers guard with `isinstance`).
A field that is JSON `null` decodes to Python `None`, so it also reads back
as `none` here; only the separate `key in d` membership test (`jhas`) can
still see such a field. -/
def jget : JSON → String → Option JSON
  | .jobj fields, key =>
      match (fields.find? (fun p => p.1 == key)).map (·.2) with
      | some JSON.jnull => none
      | v => v
  | _, _ => none

/-- Python `key in d` on a JSON object (presence, regardless of the value). -/
def jhas : JSON → String → Bool
  | .jobj fields, key => fields.any (fun p => p.1 == key)
  | _, _ => false

/-- Truthiness of a possibly-missing value (`.get` returns `None` when the
key is absent). -/
def truthyO : Option JSON → Bool
  | none => false
  | some v => truthy v

/-- Python `a or b` over possibly-`None` values: `a` when truthy, else `b`
(which is returned even when falsy). -/
def pyOr (a b : Option JSON) : Option JSON :=
  if truthyO a then a else b

/-- `obr_client.py::OBRAPIClient._jget(d, path, default=None)`: walk `path`
through nested dicts, `None` when a step is missing or not a dict. -/
def _jget : JSON → List String → Option JSON
  | v, [] => some v
  | v, key :: rest =>
      match jget v key with
      | some v' => _jget v' rest
      | none => none

/-- Python `str(value)` restricted to the shapes that can reach the status
normalization (`_normalize_status_value` applies `str(...).strip()`); the
composite shapes get a placeholder rendering, which like any non-status
string is not a member of the status sets. -/
def pyStr : JSON → String
  | .jnull => "None"
  | .jbool b => if b then "True" else "False"
  | .jnum q => toString q
  | .jstr s => s
  | .jarr _ => "[...]"
  | .jobj _ => "{...}"

/-- `obr_client.py::AUTHORIZED_CONSENT_STATUSES`. -/
def AUTHORIZED_CONSENT_STATUSES : List String :=
  ["Authorized", "AuthorizedConsent", "Active", "Approved"]

/-- `obr_client.py::_AUTHORIZED_STATUS_SET` (lower-cased variants). -/
def _AUTHORIZED_STATUS_SET : List String :=
  ["authorized", "authorizedconsent", "active", "approved"]

/-- `status in AUTHORIZED_CONSENT_STATUSES` for the possibly-`None`,
possibly non-string status value. -/
def statusAuthorized (status : Option JSON) : Bool :=
  match status with
  | some (.jstr s) => AUTHORIZED_CONSENT_STATUSES.contains s
  | _ => false

/-- `obr_client.py::ConsentInitResult`.  Fields hold the raw extracted JSON
values (`none` models Python `None`); `auto_approved` is already a `bool` in
the source. -/
structure ConsentInitResult where
  consent_id : Option JSON
  status : Option JSON
  auto_approved : Bool
  approval_url : Option JSON
  request_id : Option JSON

/-- The `data_section` of `initiate_consent`:
`response_data.get("data")` when it is a dict, else `{}`. -/
def data_section_of (response_data : JSON) : JSON :=
  match jget response_data "data" with
  | some (jobj fields) => jobj fields
  | _ => jobj []

/-- The response-normalization part of
`obr_client.py::OBRAPIClient.initiate_consent` (account consent), applied to
the decoded JSON object of a successful POST to
`/account-consents/request`:

* `data_section` is `response_data.get("data")` when it is a dict, else `{}`;
* `consent_id`/`request_id`/`approval_url`/`status`/`auto_approved` are the
  `or`-chains of probed spellings from the source;
* `raise ValueError` when neither `consent_id` nor `request_id` is truthy. -/
def initiate_consent_extract (response_data : JSON) :
    Except String ConsentInitResult :=
  let data_section : JSON := data_section_of response_data
  let consent_id :=
    pyOr (jget data_section "consentId")
      (pyOr (jget data_section "consent_id")
        (pyOr (jget response_data "consentId") (jget response_data "consent_id")))
  let request_id :=
    pyOr (jget data_section "requestId")
      (pyOr (jget data_section "request_id")
        (pyOr (jget response_data "request_id") (jget response_data "requestId")))
  let links : JSON :=
    match jget response_data "links" with
    | some v => v
    | none => jobj []
  let approval_url :=
    pyOr (jget links "consentApproval")
      (pyOr (jget links "consentApprovalUrl")
        (pyOr (jget links "approvalUrl")
          (pyOr (jget response_data "approvalUrl")
            (jget response_data "approval_url"))))
  let status := pyOr (jget data_section "status") (jget response_data "status")
  let auto_approved :=
    truthyO (jget response_data "auto_approved")
    || truthyO (jget data_section "autoApproved")
    || statusAuthorized status
  if !truthyO consent_id && !truthyO request_id then
    .error "API did not return a consent or request identifier."
  else
    .ok ⟨consent_id, status, auto_approved, approval_url, request_id⟩

/-- The per-response normalization in the payload loop of
`obr_client.py::OBRAPIClient.initiate_product_consent` (and, verbatim
identical in the source, of `initiate_payment_consent`): extract
`request_id`/`consent_id`/`status`/`auto_approved`/`approval_url` by probing
top-level and `data`-nested spellings; `continue` (here: `none`) when
`request_id` is not truthy; otherwise normalize the status and build the
result. -/
def initiate_product_consent_extract (data : JSON) : Option ConsentInitResult :=
  let request_id :=
    pyOr (jget data "request_id")
      (pyOr (_jget data ["data", "requestId"]) (_jget data ["data", "request_id"]))
  let consent_id :=
    pyOr (jget data "consent_id")
      (pyOr (_jget data ["data", "consentId"]) (_jget data ["data", "consent_id"]))
  let status_raw := pyOr (jget data "status") (_jget data ["data", "status"])
  let auto_approved0 :=
    truthyO (jget data "auto_approved")
    || truthyO (_jget data ["data", "autoApproved"])
    || truthyO (_jget data ["data", "auto_approved"])
  let approval_url :=
    pyOr (_jget data ["links", "consentApproval"])
      (pyOr (_jget data ["links", "approvalUrl"]) (jget data "approval_url"))
  if !truthyO request_id then none
  else
    let normalized_status : String :=
      match status_raw with
      | some v => if truthy v then ((pyStr v).trim.toLower) else ""
      | none => ""
    let auto_approved :=
      if !auto_approved0 && normalized_status ≠ "" then
        _AUTHORIZED_STATUS_SET.contains normalized_status
      else auto_approved0
    let status_value : Option JSON :=
      if !truthyO status_raw then
        some (jstr (if auto_approved then "Approved" else "Pending"))
      else status_raw
    let final_consent_id :=
      if truthyO consent_id then consent_id else none
    some ⟨final_consent_id, status_value, auto_approved, approval_url, request_id⟩

/-- Alias for the payment-consent extraction: the loop body of
`obr_client.py::OBRAPIClient.initiate_payment_consent` is character for
character the same normalization as the product-consent one. -/
def initiate_payment_consent_extract (data : JSON) : Option ConsentInitResult :=
  initiate_product_consent_extract data

/-- One attempt of the payload loop in `initiate_product_consent` /
`initiate_payment_consent`: an `httpx.RequestError` (caught, loop continues),
a response with `status_code >= 400` (logged, loop continues), or a decoded
JSON body. -/
inductive AttemptResp where
  | transportFail
  | httpFail (code : Nat)
  | ok (body : JSON)

/-- A probed-spelling emptiness test used to state the "response contains
neither a `consent_id` nor a `request_id` under any probed spelling"
hypothesis for the product/payment consent loop: every id probe of the
extraction is falsy. -/
def lacks_ids : AttemptResp → Bool
  | .ok body =>
      !truthyO (jget body "request_id")
        && !truthyO (_jget body ["data", "requestId"])
        && !truthyO (_jget body ["data", "request_id"])
        && !truthyO (jget body "consent_id")
        && !truthyO (_jget body ["data", "consentId"])
        && !truthyO (_jget body ["data", "consent_id"])
  | _ => true

/-- The payload loop of `obr_client.py::OBRAPIClient.initiate_product_consent`
over its attempted payload/response sequence: first successfully normalized
response wins; when every attempt fails or is skipped the function
`return None`. -/
def initiate_product_consent_loop (attempts : List AttemptResp) :
    Option ConsentInitResult :=
  match attempts with
  | [] => none
  | .ok body :: rest =>
      match initiate_product_consent_extract body with
      | some r => some r
      | none => initiate_product_consent_loop rest
  | _ :: rest => initiate_product_consent_loop rest

/-- Outcome of a consent-initiation service operation in
`backend/services/consents.py`: either the normalized consent metadata is
accepted (and persisted), or the operation ends in an error outcome (an
`HTTPException(502, ...)` that the service surfaces as `state: "error"`). -/
inductive ServiceOutcome where
  | ok (r : ConsentInitResult)
  | error (msg : String)

/-- The guard in `consents.py::initiate_product_consent` (and the identical
one in `initiate_payment_consent`): `if not consent_meta or not
(consent_meta.consent_id or consent_meta.request_id): raise
HTTPException(502, "Bank did not provide ... consent identifier.")`. -/
def product_consent_service (attempts : List AttemptResp) : ServiceOutcome :=
  match initiate_product_consent_loop attempts with
  | none => .error "Bank did not provide product consent identifier."
  | some r =>
      if truthyO r.consent_id || truthyO r.request_id then .ok r
      else .error "Bank did not provide product consent identifier."

/-- The guard in `consents.py::initiate_consent` (account consent): the
client call raises `ValueError` when both identifiers are missing (caught and
re-raised as `HTTPException(502)`), and the service additionally checks
`consent_identifier = consent_meta.consent_id or consent_meta.request_id`. -/
def account_consent_service (response_data : JSON) : ServiceOutcome :=
  match initiate_consent_extract response_data with
  | .error _ => .error "Could not initiate consent with bank."
  | .ok r =>
      if truthyO (pyOr r.consent_id r.request_id) then .ok r
      else .error "Bank did not provide consent or request identifier."

end Wire

namespace Tx

open Wire Wire.JSON

/-- `str.strip()` on a character list: drop whitespace from both ends. -/
def trimChars (cs : List Char) : List Char :=
  ((cs.dropWhile Char.isWhitespace).reverse.dropWhile Char.isWhitespace).reverse

/-- The numeric value of a non-empty all-digit character run, else `none`. -/
def digitsVal? (cs : List Char) : Option Nat :=
  if cs = [] then none
  else if cs.all Char.isDigit then
    some (cs.foldl (fun a c => a * 10 + (c.toNat - 48)) 0)
  else none

/-- Split a character list on the `.` separator (like `"a.b".split(".")`). -/
def splitDot : List Char → List (List Char)
  | [] => [[]]
  | c :: rest =>
      if c = '.' then [] :: splitDot rest
      else
        match splitDot rest with
        | [] => [[c]]
        | h :: t => (c :: h) :: t

/-- Python `float(value)` on a decimal string: strip whitespace, optional
sign, digits with at most one decimal point (`"1."` and `".5"` parse, as in
Python); scientific notation and the inf/nan spellings are not modelled. -/
def parseDecimal (s : String) : Option Rat :=
  let t := trimChars s.toList
  let neg := t.head? = some '-'
  let t1 := if t.head? = some '-' ∨ t.head? = some '+' then t.drop 1 else t
  match splitDot t1 with
  | [intPart] =>
      (digitsVal? intPart).map fun n => if neg then -(n : Rat) else (n : Rat)
  | [intPart, fracPart] =>
      if intPart = [] ∧ fracPart = [] then none
      else
        let ip := if intPart = [] then some 0 else digitsVal? intPart
        let fp := if fracPart = [] then some 0 else digitsVal? fracPart
        match ip, fp with
        | some i, some f =>
            let q : Rat := (i : Rat) + (f : Rat) / ((10 : Rat) ^ fracPart.length)
            some (if neg then -q else q)
        | _, _ => none
  | _ => none

/-- Python `float(value)` on the amount candidates that occur in a decoded
JSON payload: numbers pass through, booleans coerce to 0/1, strings go
through `parseDecimal`, everything else (`None`, lists, dicts) raises a
`TypeError` that `_to_transaction_model` catches, modelled by `none`. -/
def pyFloat : Option Wire.JSON → Option Rat
  | some (.jnum q) => some q
  | some (.jbool b) => some (if b then 1 else 0)
  | some (.jstr s) => parseDecimal s
  | _ => none

/-- A calendar date `(year, month, day)` as produced by
`datetime.date()`. -/
abbrev Date := Nat × Nat × Nat

/-- `obr_client.py::OBRAPIClient._parse_booking_datetime(raw_value)`:
non-strings and blank strings yield `None`; otherwise the value must start
with an ISO `YYYY-MM-DD` date, standing alone or followed by a `T`/space
time part.  The `Z → +00:00` rewrite and the `value + "+00:00"` retry of the
source only affect the time/offset part, which this model leaves
unvalidated; an unparseable date yields `None` exactly as in the source. -/
def _parse_booking_datetime : Option Wire.JSON → Option Date
  | some (.jstr raw) =>
      match trimChars raw.toList with
      | y1 :: y2 :: y3 :: y4 :: '-' :: m1 :: m2 :: '-' :: d1 :: d2 :: rest =>
          if ([y1, y2, y3, y4, m1, m2, d1, d2].all Char.isDigit
              ∧ (rest = [] ∨ rest.head? = some 'T' ∨ rest.head? = some ' ')) then
            let num := fun l : List Char =>
              l.foldl (fun acc c => acc * 10 + (c.toNat - 48)) 0
            let m := num [m1, m2]
            let d := num [d1, d2]
            if 1 ≤ m ∧ m ≤ 12 ∧ 1 ≤ d ∧ d ≤ 31 then
              some (num [y1, y2, y3, y4], m, d)
            else none
          else none
      | _ => none
  | _ => none

/-- `obr_client.py::OBRAPIClient._safe_str(value)`: `None` for `None`,
else `str(value).strip()` or `None` when blank. -/
def _safe_str : Option Wire.JSON → Option String
  | none => none
  | some j => let t := (pyStr j).trim; if t = "" then none else some t

/-- `obr_client.py::OBRAPIClient._normalize_merchant_payload(raw)`:
non-dicts give `{}`; otherwise the probed keys are `_safe_str`-normalized
and falsy entries are filtered out of the resulting dict. -/
def _normalize_merchant_payload : Option Wire.JSON → List (String × String)
  | some (jobj fields) =>
      let m := jobj fields
      let entries : List (String × Option String) :=
        [("merchantId",
          _safe_str (pyOr (jget m "merchantId")
            (pyOr (jget m "id") (jget m "merchant_id")))),
         ("name", _safe_str (jget m "name")),
         ("mccCode", _safe_str (pyOr (jget m "mccCode") (jget m "mcc"))),
         ("category", _safe_str (jget m "category")),
         ("city", _safe_str (jget m "city")),
         ("country", _safe_str (jget m "country")),
         ("address", _safe_str (pyOr (jget m "address") (jget m "street")))]
      entries.filterMap fun p => p.2.map fun v => (p.1, v)
  | _ => []

/-- `obr_client.py::OBRAPIClient._normalize_card_payload(raw)`. -/
def _normalize_card_payload : Option Wire.JSON → List (String × String)
  | some (jobj fields) =>
      let m := jobj fields
      let entries : List (String × Option String) :=
        [("maskedPan", _safe_str (pyOr (jget m "maskedPan") (jget m "masked_pan"))),
         ("type", _safe_str (pyOr (jget m "type") (jget m "scheme"))),
         ("name", _safe_str (jget m "name"))]
      entries.filterMap fun p => p.2.map fun v => (p.1, v)
  | _ => []

/-- `obr_client.py::OBRAPIClient._extract_bank_transaction_code(raw)`. -/
def _extract_bank_transaction_code : Option Wire.JSON → Option String
  | none => none
  | some (.jstr s) => _safe_str (some (.jstr s))
  | some (jobj fields) =>
      let m := jobj fields
      let code := _safe_str (jget m "code")
      let subcode := _safe_str (pyOr (jget m "subCode") (jget m "subcode"))
      match code, subcode with
      | some c, some sc => some (c ++ ":" ++ sc)
      | some c, none => some c
      | none, some sc => some sc
      | none, none => none
  | some _ => none

/-- `data_models.py::Transaction`, with the fields exactly as the
`Transaction(...)` constructor call in `_to_transaction_model` fills them
(`accountId` is not passed and stays `None`).  The free-form `description` /
`transactionInformation` values are kept as the raw JSON the source passes
to the constructor. -/
structure Transaction where
  transactionId : String
  amount : Rat
  currency : String
  accountId : Option String
  description : Option Wire.JSON
  bookingDate : Date
  creditDebitIndicator : Option String
  bankTransactionCode : Option String
  merchant : List (String × String)
  mccCode : Option String
  category : Option String
  transactionInformation : Option Wire.JSON
  transactionLocation : List (String × Wire.JSON)
  card : List (String × String)

/-- The `amount_payload` probing chain of `_to_transaction_model`:
`raw.get("amount") or raw.get("transactionAmount") or
raw.get("transaction_amount")`. -/
def resolved_amount_payload (raw : Wire.JSON) : Option Wire.JSON :=
  pyOr (jget raw "amount")
    (pyOr (jget raw "transactionAmount") (jget raw "transaction_amount"))

/-- The `amount_value` that `_to_transaction_model` hands to `float(...)`:
taken from a dict-shaped `amount_payload`'s `"amount"` field, or the payload
itself when scalar, with the `raw.get("amount")` fallback when still
`None`. -/
def resolved_amount_value (raw : Wire.JSON) : Option Wire.JSON :=
  let first : Option Wire.JSON :=
    match resolved_amount_payload raw with
    | some (jobj fs) => jget (jobj fs) "amount"
    | some v => some v
    | none => none
  match first with
  | none => jget raw "amount"
  | some v => some v

/-- The `booking_value` probing chain of `_to_transaction_model`:
`raw.get("bookingDate") or raw.get("bookingDateTime") or
raw.get("valueDate") or raw.get("valueDateTime")`. -/
def resolved_booking_value (raw : Wire.JSON) : Option Wire.JSON :=
  pyOr (jget raw "bookingDate")
    (pyOr (jget raw "bookingDateTime")
      (pyOr (jget raw "valueDate") (jget raw "valueDateTime")))

/-- `obr_client.py::OBRAPIClient._to_transaction_model(raw)`.  `fresh_id`
stands for the `str(uuid.uuid4())` fallback transaction id.  Returns `none`
(the record is dropped) for non-dict payloads, for an amount that
`float(...)` cannot parse, and for a booking value that
`_parse_booking_datetime` cannot parse. -/
def _to_transaction_model (fresh_id : String) (raw : Wire.JSON) :
    Option Transaction :=
  match raw with
  | jobj _ =>
    let tid_chain :=
      pyOr (jget raw "transactionId") (pyOr (jget raw "transaction_id") (jget raw "id"))
    let transaction_id : Wire.JSON :=
      match tid_chain with
      | some v => if truthy v then v else .jstr fresh_id
      | none => .jstr fresh_id
    let currency0 : Wire.JSON :=
      match resolved_amount_payload raw with
      | some (jobj fs) => (jget (jobj fs) "currency").getD (.jstr "RUB")
      | _ => .jstr "RUB"
    let payload_is_dict : Bool :=
      match resolved_amount_payload raw with
      | some (jobj _) => true
      | _ => false
    let currency : Wire.JSON :=
      if jhas raw "currency" && !payload_is_dict then
        if truthyO (jget raw "currency") then
          (jget raw "currency").getD currency0
        else currency0
      else currency0
    match pyFloat (resolved_amount_value raw) with
    | none => none
    | some amount0 =>
      let indicator := pyOr (jget raw "creditDebitIndicator") (jget raw "direction")
      let amount : Rat :=
        match indicator with
        | some (.jstr s) =>
            if s.toLower.startsWith "debit" then -|amount0|
            else if s.toLower.startsWith "credit" then |amount0|
            else amount0
        | _ => amount0
      match _parse_booking_datetime (resolved_booking_value raw) with
      | none => none
      | some booking_dt =>
        let description :=
          pyOr (jget raw "transactionInformation")
            (pyOr (jget raw "description")
              (pyOr (jget raw "narration") (jget raw "statementDescription")))
        let transaction_information := jget raw "transactionInformation"
        let merchant_payload := _normalize_merchant_payload (jget raw "merchant")
        let mcc_code : Option String :=
          match (merchant_payload.find? (·.1 == "mccCode")).map (·.2) with
          | some s => some s
          | none => _safe_str (pyOr (jget raw "mccCode") (jget raw "mcc_code"))
        let bank_transaction_code :=
          _extract_bank_transaction_code
            (pyOr (jget raw "bankTransactionCode") (jget raw "bank_transaction_code"))
        let transaction_location : List (String × Wire.JSON) :=
          match pyOr (jget raw "transactionLocation")
              (pyOr (jget raw "transaction_location") (jget raw "location")) with
          | some (jobj fs) => fs
          | _ => []
        let card_payload :=
          _normalize_card_payload
            (pyOr (jget raw "card")
              (pyOr (jget raw "cardInstrument") (jget raw "card_instrument")))
        let category :=
          _safe_str (pyOr (jget raw "category")
            (pyOr (jget raw "transactionCategory") (jget raw "categoryCode")))
        some
          { transactionId := pyStr transaction_id
            amount := amount
            currency := pyStr currency
            accountId := none
            description := description
            bookingDate := booking_dt
            creditDebitIndicator := _safe_str indicator
            bankTransactionCode := bank_transaction_code
            merchant := merchant_payload
            mccCode := mcc_code
            category := category
            transactionInformation := transaction_information
            transactionLocation := transaction_location
            card := card_payload }
  | _ => none

/-- The accumulation effect of the nested account/page loops in
`obr_client.py::OBRAPIClient.fetch_transactions_with_consent` on
`all_transactions`: for every page of raw records, each record is appended
iff `_to_transaction_model` yields a model, otherwise it is dropped (and the
drop is logged). -/
def fetch_transactions_collect (fresh_id : String) (pages : List (List Wire.JSON)) :
    List Transaction :=
  (pages.map fun raws => raws.filterMap (_to_transaction_model fresh_id)).flatten

end Tx

namespace Consents

/-- One row of the `consents` table as touched by
`database.py::find_consent_by_type`. -/
structure ConsentRow where
  user_id : String
  bank_id : String
  consent_id : String
  status : String
  consent_type : String
  created_at : Nat
deriving Repr, DecidableEq

/-- Result row of `find_consent_by_type`
(`database.py::StoredConsent(bank_id, consent_id, consent_type)`). -/
structure StoredConsent where
  bank_id : String
  consent_id : String
  consent_type : String
deriving Repr, DecidableEq

/-- `ORDER BY created_at DESC LIMIT 1`: the row with the maximal
`created_at` (ties broken towards the earlier row, which SQL leaves
unspecified). -/
def newestRow (rows : List ConsentRow) : Option ConsentRow :=
  rows.foldl
    (fun acc r =>
      match acc with
      | none => some r
      | some b => if b.created_at < r.created_at then some r else some b)
    none

/-- `database.py::find_consent_by_type(user_id, bank_id, consent_type)`:
`SELECT ... WHERE user_id = ? AND bank_id = ? AND consent_type = ? AND
status = 'APPROVED' ORDER BY created_at DESC LIMIT 1`, mapped into a
`StoredConsent` (with the `consent_type or consent_type` fallback of the
source collapsing to the row's value, which the filter has already pinned). -/
def find_consent_by_type (db : List ConsentRow) (uid bid ty : String) :
    Option StoredConsent :=
  let hits := db.filter fun r =>
    r.user_id == uid && r.bank_id == bid && r.consent_type == ty
      && r.status == "APPROVED"
  (newestRow hits).map fun r => ⟨r.bank_id, r.consent_id, r.consent_type⟩

/-- The per-consent item the batch puts into `bank_result` in
`consents.py::create_multiple_consents`. -/
structure PairItem where
  status : String
  consent_id : Option String
  reused : Bool
deriving Repr, DecidableEq

/-- What the fresh-initiation path (`initiate_consent` /
`initiate_product_consent` / `initiate_payment_consent` called from the
batch) would do for one (user, bank, type) pair: its reported state, the
identifiers it returns, how many bank calls it performs (at least the
consent-request POST), and the consent rows it persists via
`save_consent`. -/
structure FreshInit where
  state : String
  consent_id : Option String
  request_id : Option String
  bank_calls : Nat
  new_rows : List ConsentRow

/-- One (bank, consent-type) step of
`consents.py::create_multiple_consents`: reuse an existing `APPROVED`
consent found by `find_consent_by_type` — building the item from its
`consent_id` with `reused: True` and performing **no** bank call and **no**
database write — or else run the fresh initiation path.  Returns the item,
the number of bank calls performed for this pair, and the resulting
consents table.  The source repeats this block verbatim for the account,
product and payment consent kinds. -/
def process_consent_pair (env : FreshInit) (db : List ConsentRow)
    (uid bid ty : String) : PairItem × Nat × List ConsentRow :=
  match find_consent_by_type db uid bid ty with
  | some existing =>
      (⟨"approved", some existing.consent_id, true⟩, 0, db)
  | none =>
      let status_value :=
        if env.state == "approved" then "approved"
        else if env.state == "pending" then "pending"
        else "creating"
      (⟨status_value, env.consent_id, false⟩, env.bank_calls, db ++ env.new_rows)

end Consents

/-! ## Helper lemmas -/

namespace DB

theorem find?_eq_filter_head? (p : α → Bool) (l : List α) :
    l.find? p = (l.filter p).head? := by
  induction l with
  | nil => rfl
  | cons a t ih =>
      cases h : p a
      · rw [List.find?_cons_of_neg _ (by simp [h]),
          List.filter_cons_of_neg (by simp [h]), ih]
      · rw [List.find?_cons_of_pos _ h, List.filter_cons_of_pos h, List.head?_cons]

theorem get_sync_lock_eq_find? (tbl : LockTable) (u : String) (now : Nat) :
    get_sync_lock tbl u now
      = tbl.find? (fun r => r.user_id == u && now < r.expires_at) := by
  rw [get_sync_lock, find?_eq_filter_head?]

theorem acquire_true_iff (tbl : LockTable) (u s : String) (now ttl : Nat) :
    (acquire_sync_lock tbl u s now ttl).1 = true
      ↔ get_sync_lock tbl u now = none := by
  rw [get_sync_lock_eq_find?, acquire_sync_lock]
  cases h : tbl.find? (fun r => r.user_id == u && now < r.expires_at) <;> simp [h]

theorem cleared_not_user (tbl : LockTable) (u : String) :
    ∀ r ∈ tbl.filter (fun r => r.user_id != u), r.user_id ≠ u := by
  intro r hr
  have := (List.mem_filter.mp hr).2
  simpa [bne_iff_ne] using this

theorem acquire_installs (tbl : LockTable) (u s : String) (now ttl : Nat)
    (httl : 0 < ttl)
    (h : (acquire_sync_lock tbl u s now ttl).1 = true) :
    get_sync_lock (acquire_sync_lock tbl u s now ttl).2 u now
      = some ⟨u, now, s, now + ttl⟩ := by
  rw [acquire_sync_lock] at h ⊢
  cases hf : tbl.find? (fun r => r.user_id == u && now < r.expires_at) with
  | some r => rw [hf] at h; simp at h
  | none =>
      dsimp only
      rw [get_sync_lock_eq_find?, List.find?_append]
      have h1 : (tbl.filter (fun r => r.user_id != u)).find?
          (fun r => r.user_id == u && now < r.expires_at) = none := by
        rw [List.find?_eq_none]
        intro r hr
        have := cleared_not_user tbl u r hr
        simp [this]
      rw [h1]
      simp [httl]

theorem acquire_pk (tbl : LockTable) (u s : String) (now ttl : Nat)
    (hpk : pkUnique tbl) :
    pkUnique (acquire_sync_lock tbl u s now ttl).2 := by
  rw [acquire_sync_lock]
  cases hf : tbl.find? (fun r => r.user_id == u && now < r.expires_at) with
  | some r => exact hpk
  | none =>
      dsimp only
      intro uid
      rw [List.countP_append]
      by_cases hu : uid = u
      · subst hu
        have h0 : (tbl.filter (fun r => r.user_id != uid)).countP
            (fun r => r.user_id == uid) = 0 := by
          rw [List.countP_eq_zero]
          intro r hr
          have := cleared_not_user tbl uid r hr
          simp [this]
        rw [h0]
        simp [List.countP_cons]
      · have h1 : (tbl.filter (fun r => r.user_id != u)).countP
            (fun r => r.user_id == uid) ≤ tbl.countP (fun r => r.user_id == uid) :=
          (List.filter_sublist tbl).countP_le _
        have h2 : ([(⟨u, now, s, now + ttl⟩ : LockRow)]).countP
            (fun r => r.user_id == uid) = 0 := by
          simp [List.countP_cons, Ne.symm hu]
        have h3 := hpk uid
        omega

theorem acquire_blocked (tbl : LockTable) (u s2 : String) (now ttl : Nat)
    (h : get_sync_lock tbl u now ≠ none) :
    acquire_sync_lock tbl u s2 now ttl = (false, tbl) := by
  rw [get_sync_lock_eq_find?] at h
  rw [acquire_sync_lock]
  cases hf : tbl.find? (fun r => r.user_id == u && now < r.expires_at) with
  | some r => rfl
  | none => exact absurd hf h

theorem release_pk (tbl : LockTable) (u : String) (hpk : pkUnique tbl) :
    pkUnique (release_sync_lock tbl u) := by
  intro uid
  exact le_trans ((List.filter_sublist tbl).countP_le _) (hpk uid)

theorem get_release_none (tbl : LockTable) (uid : String) (now : Nat) :
    get_sync_lock (release_sync_lock tbl uid) uid now = none := by
  rw [get_sync_lock_eq_find?, List.find?_eq_none]
  intro r hr
  have := cleared_not_user tbl uid r hr
  simp [this]

end DB

/-! ## Claim theorems -/

/-- C1: for every user at most one sync-lock row exists (the PRIMARY KEY
invariant is preserved by acquire and release), `acquire_sync_lock` returns
`true` and installs the lock iff no lock row with `expires_at` in the future
exists for the user, a second acquire while a non-expired lock exists returns
`false` and leaves the table unchanged, and concretely:
`AcquireLock("u1","s1",60)` is `true`, an immediate
`AcquireLock("u1","s2",60)` is `false`, and at time 61 `AcquireLock("u1","s3",60)`
is `true` again. -/
theorem C1_acquire_sync_lock_exclusive_self_healing
    (tbl : DB.LockTable) (u s s2 : String) (now ttl : Nat)
    (hpk : DB.pkUnique tbl) (httl : 0 < ttl) :
    ((DB.acquire_sync_lock tbl u s now ttl).1 = true
        ↔ DB.get_sync_lock tbl u now = none)
    ∧ ((DB.acquire_sync_lock tbl u s now ttl).1 = true →
        DB.get_sync_lock (DB.acquire_sync_lock tbl u s now ttl).2 u now
          = some ⟨u, now, s, now + ttl⟩)
    ∧ DB.pkUnique (DB.acquire_sync_lock tbl u s now ttl).2
    ∧ DB.pkUnique (DB.release_sync_lock tbl u)
    ∧ (DB.get_sync_lock tbl u now ≠ none →
        DB.acquire_sync_lock tbl u s2 now ttl = (false, tbl))
    ∧ (DB.acquire_sync_lock [] "u1" "s1" 0 60).1 = true
    ∧ (DB.acquire_sync_lock
        (DB.acquire_sync_lock [] "u1" "s1" 0 60).2 "u1" "s2" 0 60).1 = false
    ∧ (DB.acquire_sync_lock
        (DB.acquire_sync_lock [] "u1" "s1" 0 60).2 "u1" "s3" 61 60).1 = true :=
  ⟨DB.acquire_true_iff tbl u s now ttl,
   DB.acquire_installs tbl u s now ttl httl,
   DB.acquire_pk tbl u s now ttl hpk,
   DB.release_pk tbl u hpk,
   DB.acquire_blocked tbl u s2 now ttl,
   by decide, by decide, by decide⟩

/-- Witness for C1 at the concrete scenario input: acquiring on an empty
table installs the lock row for `"u1"`. -/
theorem C1_acquire_sync_lock_exclusive_self_healing_witness :
    DB.get_sync_lock (DB.acquire_sync_lock [] "u1" "s1" 0 60).2 "u1" 0
      = some ⟨"u1", 0, "s1", 60⟩ := by
  have h := C1_acquire_sync_lock_exclusive_self_healing [] "u1" "s1" "s2" 0 60
    (fun uid => by simp [DB.pkUnique]) (by decide)
  exact h.2.1 (by decide)

/-- C10: `release_sync_lock(user_id)` takes no `sync_id` and performs no
holder check: for every lock-table state it deletes every row of the user —
including a non-expired lock held by a different `sync_id` — and afterwards
`get_sync_lock(user_id)` returns `None`. -/
theorem C10_release_sync_lock_unconditional :
    (∀ (tbl : DB.LockTable) (uid : String) (now : Nat),
        DB.get_sync_lock (DB.release_sync_lock tbl uid) uid now = none
        ∧ (DB.release_sync_lock tbl uid).all (fun r => r.user_id != uid) = true)
    ∧ DB.get_sync_lock
        (DB.release_sync_lock [⟨"u1", 0, "other-sync", 100⟩] "u1") "u1" 0 = none :=
  ⟨fun tbl uid now =>
    ⟨DB.get_release_none tbl uid now,
     by
      rw [List.all_eq_true]
      intro r hr
      have := DB.cleared_not_user tbl uid r hr
      simp [this]⟩,
   by decide⟩

/-- C2: the claim asks that every sync operation that acquires the per-user
lock releases it on every termination path.  `_run_sync_background` does
(its whole body is inside `try/except/finally`), but `run_full_refresh`
raises `HTTPException(424)` — and would propagate any consent-loading
error — *after* `acquire_sync_lock` and *before* its `try/finally`, so on
the no-approved-consents path the operation terminates with the lock row
still installed: the code contradicts the specified unconditional release. -/
theorem C2_run_full_refresh_leaks_lock_on_no_consents :
    (∀ (env : SyncEngine.Env) (tbl : DB.LockTable) (uid : String) (now : Nat),
        DB.get_sync_lock (SyncEngine.run_sync_background env tbl uid).2 uid now
          = none)
    ∧ (SyncEngine.run_full_refresh ⟨.ok [], .ok [], fun _ => .ok (), .ok ()⟩
          [] "u1" "s1" 0 false).1
        = .error (.http 424 "No approved consents found.")
    ∧ DB.get_sync_lock
        (SyncEngine.run_full_refresh ⟨.ok [], .ok [], fun _ => .ok (), .ok ()⟩
          [] "u1" "s1" 0 false).2 "u1" 0
        = some ⟨"u1", 0, "s1", 300⟩ :=
  ⟨fun env tbl uid now => DB.get_release_none tbl uid now,
   rfl, by decide⟩

namespace SyncEngine

theorem failed_entries_eq (env : Env) (bfail : String) (e : Exc)
    (accounts : List StoredConsent)
    (h3 : ∀ c ∈ accounts, c.bank_id ≠ bfail → env.bankSync c.bank_id = .ok ())
    (h4 : env.bankSync bfail = .error e) :
    accounts.filterMap (fun c => failedOf (c.bank_id, env.bankSync c.bank_id))
      = (accounts.filter (fun c => c.bank_id == bfail)).map
          (fun c => (c.bank_id, e.msg)) := by
  induction accounts with
  | nil => rfl
  | cons c rest ih =>
      have hrest := fun d hd => h3 d (List.mem_cons_of_mem c hd)
      by_cases hc : c.bank_id = bfail
      · simp only [List.filterMap_cons, List.filter_cons, hc, h4, failedOf,
          beq_self_eq_true, if_true, List.map_cons]
        exact congrArg (List.cons (bfail, e.msg)) (ih hrest)
      · simp only [List.filterMap_cons, List.filter_cons, failedOf,
          h3 c (List.mem_cons_self c rest) hc]
        rw [if_neg (by simp [hc])]
        exact ih hrest

theorem synced_entries_eq (env : Env) (bfail : String) (e : Exc)
    (accounts : List StoredConsent)
    (h3 : ∀ c ∈ accounts, c.bank_id ≠ bfail → env.bankSync c.bank_id = .ok ())
    (h4 : env.bankSync bfail = .error e) :
    accounts.filterMap (fun c => syncedOf (c.bank_id, env.bankSync c.bank_id))
      = (accounts.filter (fun c => c.bank_id != bfail)).map (·.bank_id) := by
  induction accounts with
  | nil => rfl
  | cons c rest ih =>
      have hrest := fun d hd => h3 d (List.mem_cons_of_mem c hd)
      by_cases hc : c.bank_id = bfail
      · simp only [List.filterMap_cons, List.filter_cons, hc, h4, syncedOf]
        rw [if_neg (by simp)]
        exact ih hrest
      · simp only [List.filterMap_cons, List.filter_cons, syncedOf,
          h3 c (List.mem_cons_self c rest) hc, List.map_cons]
        rw [if_pos (by simp [hc])]
        exact congrArg (List.cons c.bank_id) (ih hrest)

theorem results_entries_eq (env : Env) (bfail : String) (e : Exc)
    (accounts : List StoredConsent)
    (h3 : ∀ c ∈ accounts, c.bank_id ≠ bfail → env.bankSync c.bank_id = .ok ())
    (h4 : env.bankSync bfail = .error e) :
    accounts.map (bankStatusEntry env)
      = accounts.map fun c =>
          (c.bank_id, if c.bank_id == bfail then "error" else "success") := by
  apply List.map_congr_left
  intro c hc
  by_cases h : c.bank_id = bfail
  · simp [bankStatusEntry, h, h4]
  · simp [bankStatusEntry, h, h3 c hc h]

end SyncEngine

/-- C3: during a multi-bank sync where exactly one bank's per-bank job
raises, the outcome contains a success entry for each of the other n-1 banks
and an error entry for the failing bank, and no exception escapes the
coordinator: the background job records no fatal exception, its
`banks_failed` list is exactly the failing bank with its message and its
`banks_synced` list is the other n-1 banks, and the synchronous
`run_full_refresh` returns `.ok` with per-bank "success"/"error" entries. -/
theorem C3_partial_bank_isolation
    (env : SyncEngine.Env) (tbl : DB.LockTable) (uid sid bfail : String)
    (now : Nat) (accounts ps : List SyncEngine.StoredConsent) (e : SyncEngine.Exc)
    (h1 : env.accountsConsents = .ok accounts)
    (h2 : env.productsConsents = .ok ps)
    (h3 : ∀ c ∈ accounts, c.bank_id ≠ bfail → env.bankSync c.bank_id = .ok ())
    (h4 : env.bankSync bfail = .error e)
    (h5 : accounts.countP (fun c => c.bank_id == bfail) = 1)
    (h6 : DB.is_sync_locked tbl uid now = false) :
    ((SyncEngine.run_sync_background env tbl uid).1.fatal = none
      ∧ (SyncEngine.run_sync_background env tbl uid).1.banks_failed = [(bfail, e.msg)]
      ∧ (SyncEngine.run_sync_background env tbl uid).1.banks_synced
          = (accounts.filter (fun c => c.bank_id != bfail)).map (·.bank_id)
      ∧ (SyncEngine.run_sync_background env tbl uid).1.banks_synced.length + 1
          = accounts.length)
    ∧ (SyncEngine.run_full_refresh env tbl uid sid now false).1
        = .ok ⟨accounts.map (fun c =>
            (c.bank_id, if c.bank_id == bfail then "error" else "success")), sid⟩ := by
  have hne : accounts.isEmpty = false := by
    cases accounts with
    | nil => simp at h5
    | cons a l => rfl
  have hlen : (accounts.filter (fun c => c.bank_id == bfail)).length = 1 := by
    rw [← List.countP_eq_length_filter]; exact h5
  obtain ⟨c0, hc0⟩ := List.length_eq_one.mp hlen
  have hc0mem : c0 ∈ accounts.filter (fun c => c.bank_id == bfail) := by
    rw [hc0]; exact List.mem_singleton_self _
  have hc0b : c0.bank_id = bfail := by
    simpa using (List.mem_filter.mp hc0mem).2
  have hfailed :
      accounts.filterMap (fun c => SyncEngine.failedOf (c.bank_id, env.bankSync c.bank_id))
        = [(bfail, e.msg)] := by
    rw [SyncEngine.failed_entries_eq env bfail e accounts h3 h4, hc0,
      List.map_cons, List.map_nil, hc0b]
  have hsynced := SyncEngine.synced_entries_eq env bfail e accounts h3 h4
  have hbg : (SyncEngine.run_sync_background env tbl uid).1
      = ⟨(accounts.filter (fun c => c.bank_id != bfail)).map (·.bank_id),
         [(bfail, e.msg)], none⟩ := by
    simp only [SyncEngine.run_sync_background, h1, h2, hne, Bool.false_eq_true,
      if_false, List.filterMap_map, Function.comp_def]
    rw [hfailed, hsynced]
  have hlensum : ((accounts.filter (fun c => c.bank_id != bfail)).map
      (·.bank_id)).length + 1 = accounts.length := by
    rw [List.length_map, ← List.countP_eq_length_filter]
    have hcongr : accounts.countP (fun c => c.bank_id != bfail)
        = accounts.countP (fun c => decide ¬((c.bank_id == bfail) = true)) := by
      apply List.countP_congr
      intro a _
      by_cases h : a.bank_id = bfail <;> simp [h]
    rw [hcongr]
    have := List.length_eq_countP_add_countP (fun c : SyncEngine.StoredConsent =>
      c.bank_id == bfail) accounts
    omega
  refine ⟨⟨by rw [hbg], by rw [hbg], by rw [hbg], by rw [hbg]; exact hlensum⟩, ?_⟩
  have hget : DB.get_sync_lock tbl uid now = none := by
    unfold DB.is_sync_locked at h6
    exact Option.not_isSome_iff_eq_none.mp (by simp [h6])
  have hacq : (DB.acquire_sync_lock tbl uid sid now 300).1 = true :=
    (DB.acquire_true_iff tbl uid sid now 300).mpr hget
  cases hacqeq : DB.acquire_sync_lock tbl uid sid now 300 with
  | mk b tbl' =>
      cases b with
      | false => rw [hacqeq] at hacq; simp at hacq
      | true =>
          simp only [SyncEngine.run_full_refresh, h6, Bool.false_eq_true, if_false,
            hacqeq, h1, h2, hne]
          rw [SyncEngine.results_entries_eq env bfail e accounts h3 h4]

/-- Witness for C3: three banks A, B, C with B raising `"boom"`. -/
theorem C3_partial_bank_isolation_witness :
    (SyncEngine.run_sync_background
      ⟨.ok [⟨"A", "ca", "accounts"⟩, ⟨"B", "cb", "accounts"⟩, ⟨"C", "cc", "accounts"⟩],
       .ok [], fun b => if b == "B" then .error (.err "boom") else .ok (), .ok ()⟩
      [] "u1").1.banks_failed = [("B", "boom")]
    ∧ (SyncEngine.run_full_refresh
      ⟨.ok [⟨"A", "ca", "accounts"⟩, ⟨"B", "cb", "accounts"⟩, ⟨"C", "cc", "accounts"⟩],
       .ok [], fun b => if b == "B" then .error (.err "boom") else .ok (), .ok ()⟩
      [] "u1" "s1" 0 false).1
        = .ok ⟨[("A", "success"), ("B", "error"), ("C", "success")], "s1"⟩ := by
  have h := C3_partial_bank_isolation
    ⟨.ok [⟨"A", "ca", "accounts"⟩, ⟨"B", "cb", "accounts"⟩, ⟨"C", "cc", "accounts"⟩],
     .ok [], fun b => if b == "B" then .error (.err "boom") else .ok (), .ok ()⟩
    [] "u1" "s1" "B" 0
    [⟨"A", "ca", "accounts"⟩, ⟨"B", "cb", "accounts"⟩, ⟨"C", "cc", "accounts"⟩]
    [] (.err "boom") rfl rfl
    (by
      intro c hc hb
      simp only [List.mem_cons, List.not_mem_nil, or_false] at hc
      rcases hc with rfl | rfl | rfl
      · rfl
      · exact absurd rfl hb
      · rfl)
    rfl (by decide) (by decide)
  exact ⟨h.1.2.1, h.2⟩

namespace Retry

theorem retryGo_attempt_bounds (f : Nat → Except NetExc α) (a fuel : Nat) :
    a ≤ (retryGo f 3 a fuel).2 ∧ (retryGo f 3 a fuel).2 ≤ a + fuel := by
  induction fuel generalizing a with
  | zero =>
      unfold retryGo
      cases f a <;> simp
  | succ fuel ih =>
      unfold retryGo
      cases f a with
      | ok v => simp
      | error e =>
          dsimp only
          by_cases hre : (_is_retryable e && a < 3) = true
          · rw [if_pos hre]
            have := ih (a + 1)
            omega
          · rw [if_neg hre]
            simp

end Retry

/-- C4: an `@api_retry`-decorated call is attempted at most 3 times in total
(and at least once); a retry happens only after a failure that
`_is_retryable` accepts — a transport error or an HTTP 5xx; an HTTP 4xx
fails on the first attempt with no retry; a transport that fails twice then
succeeds completes in exactly 3 attempts; and the configured backoff
(`wait_exponential(multiplier=1, min=1, max=5)`) starts at 1s, doubles, and
is capped at 5s. -/
theorem C4_retry_policy (α : Type) (f : Nat → Except Retry.NetExc α)
    (x : α) (c : Nat) :
    (1 ≤ (Retry.api_retry f).2 ∧ (Retry.api_retry f).2 ≤ 3)
    ∧ (2 ≤ (Retry.api_retry f).2 →
        ∃ e, f 1 = .error e ∧ Retry._is_retryable e = true)
    ∧ (3 ≤ (Retry.api_retry f).2 →
        ∃ e, f 2 = .error e ∧ Retry._is_retryable e = true)
    ∧ (400 ≤ c → c < 500 → f 1 = .error (.httpStatus c) →
        Retry.api_retry f = (.error (.httpStatus c), 1))
    ∧ (f 1 = .error .transport → f 2 = .error .transport → f 3 = .ok x →
        Retry.api_retry f = (.ok x, 3))
    ∧ Retry.backoff_wait 0 = 1
    ∧ (∀ k, 1 ≤ Retry.backoff_wait k ∧ Retry.backoff_wait k ≤ 5)
    ∧ (∀ k, Retry.backoff_wait (k + 1) = min 5 (2 * Retry.backoff_wait k)) := by
  refine ⟨?_, ?_, ?_, ?_, ?_, by decide, ?_, ?_⟩
  · have h := Retry.retryGo_attempt_bounds f 1 2
    exact ⟨h.1, h.2⟩
  · intro h2
    unfold Retry.api_retry Retry.retryGo at h2
    cases hf1 : f 1 with
    | ok v => rw [hf1] at h2; simp at h2
    | error e =>
        rw [hf1] at h2
        by_cases hre : Retry._is_retryable e = true
        · exact ⟨e, rfl, hre⟩
        · rw [Bool.not_eq_true] at hre
          simp [hre] at h2
  · intro h3
    unfold Retry.api_retry Retry.retryGo at h3
    cases hf1 : f 1 with
    | ok v => rw [hf1] at h3; simp at h3
    | error e1 =>
        rw [hf1] at h3
        by_cases hre1 : Retry._is_retryable e1 = true
        · simp only [hre1, Bool.true_and, decide_True, if_pos] at h3
          unfold Retry.retryGo at h3
          cases hf2 : f 2 with
          | ok v => rw [hf2] at h3; simp at h3
          | error e2 =>
              rw [hf2] at h3
              by_cases hre2 : Retry._is_retryable e2 = true
              · exact ⟨e2, rfl, hre2⟩
              · rw [Bool.not_eq_true] at hre2
                simp [hre2] at h3
        · rw [Bool.not_eq_true] at hre1
          simp [hre1] at h3
  · intro h400 h500 hf1
    have hnr : Retry._is_retryable (.httpStatus c) = false := by
      unfold Retry._is_retryable
      simp [Nat.not_le.mpr h500]
    simp [Retry.api_retry, Retry.retryGo, hf1, hnr]
  · intro hf1 hf2 hf3
    simp [Retry.api_retry, Retry.retryGo, hf1, hf2, hf3, Retry._is_retryable]
  · intro k
    unfold Retry.backoff_wait
    have h1 : 0 < 2 ^ k := Nat.pow_pos (by norm_num)
    constructor
    · exact le_max_left 1 _
    · have := Nat.min_le_left 5 (1 * 2 ^ k)
      omega
  · intro k
    unfold Retry.backoff_wait
    rw [pow_succ]
    have h1 : 0 < 2 ^ k := Nat.pow_pos (by norm_num)
    generalize (2:Nat) ^ k = a at *
    omega

/-- Witness for C4: a transport that fails twice then succeeds completes in
exactly 3 attempts; a 404 makes exactly 1 attempt. -/
theorem C4_retry_policy_witness :
    Retry.api_retry (fun n =>
        if n ≤ 2 then (.error .transport : Except Retry.NetExc Nat) else .ok 42)
      = (.ok 42, 3)
    ∧ Retry.api_retry (fun _ =>
        (.error (.httpStatus 404) : Except Retry.NetExc Nat))
      = (.error (.httpStatus 404), 1) :=
  ⟨(C4_retry_policy Nat
      (fun n => if n ≤ 2 then (.error .transport : Except Retry.NetExc Nat) else .ok 42)
      42 404).2.2.2.2.1 rfl rfl rfl,
   (C4_retry_policy Nat
      (fun _ => (.error (.httpStatus 404) : Except Retry.NetExc Nat))
      42 404).2.2.2.1 (by decide) (by decide) rfl⟩

/-- C5: a cached bank token's lifetime is the validated `exp` claim minus a
60-second margin (`_token_expires_at = exp - 60`), and neither the in-memory
client cache nor the `bank_tokens` table ever serves a token within 60
seconds of its expiry; a token with 30 seconds remaining is never returned
from cache, one with 120 seconds remaining is. -/
theorem C5_token_expiry_margin :
    (∀ (tok : String) (exp : Nat),
        (TokenCache.state_after_fetch tok exp).token_expires_at = some (exp - 60))
    ∧ (∀ (tok : String) (exp now : Nat),
        (TokenCache.served_from_cache (TokenCache.state_after_fetch tok exp) now).isSome
          → now + 60 < exp)
    ∧ (∀ (row : TokenCache.TokenRow) (now : Nat),
        (TokenCache.get_cached_bank_token (some row) now).isSome
          → now + 60 < row.expires_at)
    ∧ (∀ now : Nat,
        TokenCache.served_from_cache
          (TokenCache.state_after_fetch "tok" (now + 30)) now = none
        ∧ TokenCache.served_from_cache
            (TokenCache.state_after_fetch "tok" (now + 120)) now = some "tok"
        ∧ TokenCache.get_cached_bank_token (some ⟨"tok", now + 30⟩) now = none
        ∧ TokenCache.get_cached_bank_token (some ⟨"tok", now + 120⟩) now
            = some ⟨"tok", now + 120⟩) := by
  refine ⟨fun tok exp => rfl, ?_, ?_, ?_⟩
  · intro tok exp now h
    unfold TokenCache.served_from_cache TokenCache.state_after_fetch at h
    dsimp only at h
    by_cases hc : tok ≠ "" ∧ now < exp - 60
    · omega
    · rw [if_neg hc] at h
      simp at h
  · intro row now h
    unfold TokenCache.get_cached_bank_token at h
    dsimp only at h
    by_cases hc : row.expires_at ≤ now + 60
    · rw [if_pos hc] at h
      simp at h
    · omega
  · intro now
    refine ⟨?_, ?_, ?_, ?_⟩
    · show (if ("tok" ≠ "" ∧ now < now + 30 - 60) then some "tok" else none) = none
      rw [if_neg]
      rintro ⟨-, h⟩
      omega
    · show (if ("tok" ≠ "" ∧ now < now + 120 - 60) then some "tok" else none)
        = some "tok"
      rw [if_pos]
      exact ⟨by decide, by omega⟩
    · show (if now + 30 ≤ now + 60 then none
          else some (⟨"tok", now + 30⟩ : TokenCache.TokenRow)) = none
      rw [if_pos (by omega)]
    · show (if now + 120 ≤ now + 60 then none
          else some (⟨"tok", now + 120⟩ : TokenCache.TokenRow))
        = some ⟨"tok", now + 120⟩
      rw [if_neg (by omega)]

/-- Witness for C5: at `now = 0`, a token expiring at 120 is served from the
in-memory cache, which per the theorem implies more than 60 seconds remain. -/
theorem C5_token_expiry_margin_witness :
    0 + 60 < 120 ∧ 0 + 60 < (⟨"tok", 120⟩ : TokenCache.TokenRow).expires_at :=
  ⟨(C5_token_expiry_margin).2.1 "tok" 120 0 (by decide),
   (C5_token_expiry_margin).2.2.1 ⟨"tok", 120⟩ 0 (by decide)⟩

namespace Wire

theorem truthyO_pyOr (a b : Option JSON) :
    truthyO (pyOr a b) = (truthyO a || truthyO b) := by
  unfold pyOr
  cases h : truthyO a <;> simp [h]

theorem jget_data_section (resp : JSON) (k : String) :
    jget (data_section_of resp) k = _jget resp ["data", k] := by
  unfold data_section_of _jget
  cases hj : jget resp "data" with
  | none => rfl
  | some v =>
      cases v with
      | jnull => rfl
      | jbool b => rfl
      | jnum q => rfl
      | jstr t => rfl
      | jarr items => rfl
      | jobj fields =>
          dsimp only
          cases hk : jget (JSON.jobj fields) k <;> simp [_jget, hk]

theorem product_extract_none_of_lacks (body : JSON)
    (h : lacks_ids (.ok body) = true) :
    initiate_product_consent_extract body = none := by
  unfold lacks_ids at h
  simp only [Bool.and_eq_true, Bool.not_eq_true'] at h
  obtain ⟨⟨⟨⟨⟨h1, h2⟩, h3⟩, h4⟩, h5⟩, h6⟩ := h
  unfold initiate_product_consent_extract
  rw [if_pos]
  rw [truthyO_pyOr, truthyO_pyOr, h1, h2, h3]
  rfl

theorem product_loop_none_of_lacks (attempts : List AttemptResp)
    (h : attempts.all lacks_ids = true) :
    initiate_product_consent_loop attempts = none := by
  induction attempts with
  | nil => rfl
  | cons a rest ih =>
      rw [List.all_cons, Bool.and_eq_true] at h
      cases a with
      | transportFail => exact ih h.2
      | httpFail code => exact ih h.2
      | ok body =>
          unfold initiate_product_consent_loop
          rw [product_extract_none_of_lacks body h.1]
          exact ih h.2

end Wire

/-- C6: for every consent-initiation operation, a bank response containing
neither a `consent_id` nor a `request_id` under any probed top-level or
`data`-nested spelling makes the operation fail with a protocol error rather
than return a result without identifiers: the account-consent client raises
(`ValueError` → service 502), and the product/payment-consent loop skips
every such response, returns no result, and the service guard turns that
into the 502 protocol error. -/
theorem C6_missing_identifiers_is_protocol_error
    (resp : Wire.JSON) (attempts : List Wire.AttemptResp)
    (hA : Wire.truthyO (Wire.jget resp "consentId") = false)
    (hB : Wire.truthyO (Wire.jget resp "consent_id") = false)
    (hC : Wire.truthyO (Wire._jget resp ["data", "consentId"]) = false)
    (hD : Wire.truthyO (Wire._jget resp ["data", "consent_id"]) = false)
    (hE : Wire.truthyO (Wire.jget resp "request_id") = false)
    (hF : Wire.truthyO (Wire.jget resp "requestId") = false)
    (hG : Wire.truthyO (Wire._jget resp ["data", "requestId"]) = false)
    (hH : Wire.truthyO (Wire._jget resp ["data", "request_id"]) = false)
    (hP : attempts.all Wire.lacks_ids = true) :
    Wire.initiate_consent_extract resp
        = .error "API did not return a consent or request identifier."
    ∧ Wire.account_consent_service resp
        = .error "Could not initiate consent with bank."
    ∧ Wire.initiate_product_consent_loop attempts = none
    ∧ Wire.product_consent_service attempts
        = .error "Bank did not provide product consent identifier."
    ∧ attempts.all (fun a =>
        match a with
        | .ok b => (Wire.initiate_payment_consent_extract b).isNone
        | _ => true) = true := by
  have hext : Wire.initiate_consent_extract resp
      = .error "API did not return a consent or request identifier." := by
    unfold Wire.initiate_consent_extract
    rw [if_pos]
    rw [Wire.truthyO_pyOr, Wire.truthyO_pyOr, Wire.truthyO_pyOr,
      Wire.truthyO_pyOr, Wire.truthyO_pyOr, Wire.truthyO_pyOr,
      Wire.jget_data_section, Wire.jget_data_section,
      Wire.jget_data_section, Wire.jget_data_section,
      hA, hB, hC, hD, hE, hF, hG, hH]
    rfl
  have hloop := Wire.product_loop_none_of_lacks attempts hP
  refine ⟨hext, ?_, hloop, ?_, ?_⟩
  · unfold Wire.account_consent_service
    rw [hext]
  · unfold Wire.product_consent_service
    rw [hloop]
  · rw [List.all_eq_true] at hP ⊢
    intro a ha
    cases a with
    | transportFail => rfl
    | httpFail code => rfl
    | ok body =>
        have := Wire.product_extract_none_of_lacks body (hP _ ha)
        simp [Wire.initiate_payment_consent_extract, this]

/-- Witness for C6: the auto-approved-looking response
`{"status": "Approved"}` carries no identifier under any spelling. -/
theorem C6_missing_identifiers_is_protocol_error_witness :
    Wire.initiate_consent_extract (Wire.JSON.jobj [("status", Wire.JSON.jstr "Approved")])
        = .error "API did not return a consent or request identifier."
    ∧ Wire.initiate_product_consent_loop
        [.ok (Wire.JSON.jobj [("status", Wire.JSON.jstr "Approved")])] = none := by
  have h := C6_missing_identifiers_is_protocol_error
    (Wire.JSON.jobj [("status", Wire.JSON.jstr "Approved")])
    [.ok (Wire.JSON.jobj [("status", Wire.JSON.jstr "Approved")])]
    (by decide) (by decide) (by decide) (by decide)
    (by decide) (by decide) (by decide) (by decide) (by decide)
  exact ⟨h.1, h.2.2.1⟩

/-- C8: the account-consent response `{"data":{"consentId":"c-1","status":
"Approved"}}` normalizes to `consent_id = "c-1"`, `status = "Approved"`,
`auto_approved = true` (and no approval URL or request id). -/
theorem C8_auto_approved_consent_normalization :
    Wire.initiate_consent_extract
      (Wire.JSON.jobj [("data", Wire.JSON.jobj
        [("consentId", Wire.JSON.jstr "c-1"), ("status", Wire.JSON.jstr "Approved")])])
    = .ok ⟨some (Wire.JSON.jstr "c-1"), some (Wire.JSON.jstr "Approved"),
        true, none, none⟩ := rfl

namespace Consents

theorem newestRow_isSome_aux (t : List ConsentRow) (b : ConsentRow) :
    (t.foldl (fun acc r =>
      match acc with
      | none => some r
      | some bb => if bb.created_at < r.created_at then some r else some bb)
      (some b)).isSome = true := by
  induction t generalizing b with
  | nil => rfl
  | cons a t ih =>
      rw [List.foldl_cons]
      by_cases hab : b.created_at < a.created_at
      · simp only [hab, if_true]
        exact ih a
      · simp only [hab, if_false]
        exact ih b

theorem newestRow_isSome_of_ne_nil (rows : List ConsentRow) (h : rows ≠ []) :
    (newestRow rows).isSome = true := by
  cases rows with
  | nil => exact absurd rfl h
  | cons a t =>
      unfold newestRow
      rw [List.foldl_cons]
      exact newestRow_isSome_aux t a

end Consents

/-- C7: if an `APPROVED` consent already exists for (user, bank, type), the
batch step performs zero bank calls, writes nothing, and returns the item
with `reused = true` and the existing `consent_id`; running the step again
immediately afterwards gives the identical outcome with zero bank calls
(idempotence).  Moreover the presence of any `APPROVED` row for the triple
guarantees `find_consent_by_type` finds one. -/
theorem C7_consent_reuse_idempotent
    (env env2 : Consents.FreshInit) (db : List Consents.ConsentRow)
    (uid bid ty : String) (c : Consents.StoredConsent)
    (h : Consents.find_consent_by_type db uid bid ty = some c) :
    Consents.process_consent_pair env db uid bid ty
        = (⟨"approved", some c.consent_id, true⟩, 0, db)
    ∧ Consents.process_consent_pair env2
        (Consents.process_consent_pair env db uid bid ty).2.2 uid bid ty
        = (⟨"approved", some c.consent_id, true⟩, 0, db)
    ∧ (∀ (db' : List Consents.ConsentRow) (r : Consents.ConsentRow), r ∈ db' →
        r.user_id = uid → r.bank_id = bid → r.consent_type = ty →
        r.status = "APPROVED" →
        (Consents.find_consent_by_type db' uid bid ty).isSome = true) := by
  have h1 : Consents.process_consent_pair env db uid bid ty
      = (⟨"approved", some c.consent_id, true⟩, 0, db) := by
    unfold Consents.process_consent_pair
    rw [h]
  refine ⟨h1, ?_, ?_⟩
  · rw [h1]
    unfold Consents.process_consent_pair
    rw [h]
  · intro db' r hmem hu hb hty hst
    unfold Consents.find_consent_by_type
    dsimp only
    rw [Option.isSome_map']
    apply Consents.newestRow_isSome_of_ne_nil
    apply List.ne_nil_of_mem (a := r)
    rw [List.mem_filter]
    exact ⟨hmem, by simp [hu, hb, hty, hst]⟩

/-- Witness for C7: a store holding one approved accounts consent for
(`u1`, `b1`) makes the batch step reuse it with zero bank calls, twice. -/
theorem C7_consent_reuse_idempotent_witness :
    Consents.process_consent_pair ⟨"approved", none, none, 1, []⟩
        [⟨"u1", "b1", "cid-1", "APPROVED", "accounts", 5⟩] "u1" "b1" "accounts"
      = (⟨"approved", some "cid-1", true⟩, 0,
         [⟨"u1", "b1", "cid-1", "APPROVED", "accounts", 5⟩]) :=
  (C7_consent_reuse_idempotent ⟨"approved", none, none, 1, []⟩
    ⟨"approved", none, none, 1, []⟩
    [⟨"u1", "b1", "cid-1", "APPROVED", "accounts", 5⟩] "u1" "b1" "accounts"
    ⟨"b1", "cid-1", "accounts"⟩ rfl).1

namespace Tx

theorem to_model_none_of_bad_amount (fresh : String) (raw : Wire.JSON)
    (h : pyFloat (resolved_amount_value raw) = none) :
    _to_transaction_model fresh raw = none := by
  cases raw with
  | jobj fields =>
      unfold _to_transaction_model
      rw [h]
  | jnull => rfl
  | jbool b => rfl
  | jnum q => rfl
  | jstr s => rfl
  | jarr items => rfl

theorem to_model_none_of_bad_date (fresh : String) (raw : Wire.JSON)
    (h : _parse_booking_datetime (resolved_booking_value raw) = none) :
    _to_transaction_model fresh raw = none := by
  cases raw with
  | jobj fields =>
      unfold _to_transaction_model
      cases hamt : pyFloat (resolved_amount_value (Wire.JSON.jobj fields)) with
      | none => rfl
      | some q => rw [h]
  | jnull => rfl
  | jbool b => rfl
  | jnum q => rfl
  | jstr s => rfl
  | jarr items => rfl

theorem to_model_some_parses (fresh : String) (raw : Wire.JSON)
    (t : Transaction) (h : _to_transaction_model fresh raw = some t) :
    (pyFloat (resolved_amount_value raw)).isSome = true
    ∧ (_parse_booking_datetime (resolved_booking_value raw)).isSome = true := by
  constructor
  · cases hamt : pyFloat (resolved_amount_value raw) with
    | some q => rfl
    | none =>
        rw [to_model_none_of_bad_amount fresh raw hamt] at h
        exact absurd h (by simp)
  · cases hdt : _parse_booking_datetime (resolved_booking_value raw) with
    | some d => rfl
    | none =>
        rw [to_model_none_of_bad_date fresh raw hdt] at h
        exact absurd h (by simp)

end Tx

/-- C9: a raw transaction record whose amount cannot be parsed by
`float(...)` or whose booking value cannot be parsed as a date is dropped by
`_to_transaction_model` (it returns `None`); consequently every transaction
accumulated by `fetch_transactions_with_consent` originates from a record
whose amount and booking date both parsed. -/
theorem C9_malformed_transaction_records_dropped
    (fresh : String) (raw : Wire.JSON) (pages : List (List Wire.JSON)) :
    (Tx.pyFloat (Tx.resolved_amount_value raw) = none →
        Tx._to_transaction_model fresh raw = none)
    ∧ (Tx._parse_booking_datetime (Tx.resolved_booking_value raw) = none →
        Tx._to_transaction_model fresh raw = none)
    ∧ (∀ t ∈ Tx.fetch_transactions_collect fresh pages,
        ∃ page ∈ pages, ∃ r ∈ page,
          Tx._to_transaction_model fresh r = some t
          ∧ (Tx.pyFloat (Tx.resolved_amount_value r)).isSome = true
          ∧ (Tx._parse_booking_datetime (Tx.resolved_booking_value r)).isSome
              = true) := by
  refine ⟨Tx.to_model_none_of_bad_amount fresh raw,
    Tx.to_model_none_of_bad_date fresh raw, ?_⟩
  intro t ht
  unfold Tx.fetch_transactions_collect at ht
  rw [List.mem_flatten] at ht
  obtain ⟨l, hl, htl⟩ := ht
  rw [List.mem_map] at hl
  obtain ⟨page, hpage, rfl⟩ := hl
  rw [List.mem_filterMap] at htl
  obtain ⟨r, hr, hrt⟩ := htl
  exact ⟨page, hpage, r, hr, hrt, Tx.to_model_some_parses fresh r t hrt⟩

/-- Witness for C9: a record with unparseable amount `"abc"` is dropped, and
one with unparseable booking date `"not-a-date"` is dropped. -/
theorem C9_malformed_transaction_records_dropped_witness :
    Tx._to_transaction_model "t-1"
      (Wire.JSON.jobj [("amount", Wire.JSON.jstr "abc"),
        ("bookingDate", Wire.JSON.jstr "2024-01-15")]) = none
    ∧ Tx._to_transaction_model "t-1"
      (Wire.JSON.jobj [("amount", Wire.JSON.jstr "12.5"),
        ("bookingDate", Wire.JSON.jstr "not-a-date")]) = none :=
  ⟨(C9_malformed_transaction_records_dropped "t-1"
      (Wire.JSON.jobj [("amount", Wire.JSON.jstr "abc"),
        ("bookingDate", Wire.JSON.jstr "2024-01-15")]) []).1 (by decide),
   (C9_malformed_transaction_records_dropped "t-1"
      (Wire.JSON.jobj [("amount", Wire.JSON.jstr "12.5"),
        ("bookingDate", Wire.JSON.jstr "not-a-date")]) []).2.1 (by decide)⟩
